import Mathlib

/-!
Verification development for the small-c-shell repository.

The repository is a minimal interactive shell (`main.c`, `src/shell_info.c`,
`src/shell_info.h`).  This file gives a shallow embedding of its
process-execution and job-control core and proves properties of it:

* `shell_info` and `init_shell_info` mirror `src/shell_info.h` / `.c`;
* `tokenize`, `parseTokens`, `parse_line` mirror `parse_line` in `main.c`
  (a `strtok_r` loop over space-delimited tokens);
* `output_redirection` / `input_redirection` mirror the redirection helpers,
  with the success of `open` and `dup2` passed in as booleans and the
  `exit(code)` calls modelled as `Except.error code`;
* `child_config` / `child_run` / `other_cmd_child_output` mirror the
  child branch of `other_cmd` (signal dispositions, null-device fallback,
  explicit redirection, `execvp`, `exit(2)` on exec failure);
* `other_cmd_parent` / `other_cmd_parent_wait` mirror the parent branch
  (blocking vs `WNOHANG` wait, abnormal-exit report);
* `reap_sweep` and `execute_cmd` mirror `execute_cmd` (built-in dispatch
  followed by the non-blocking reap loop);
* `my_status` mirrors the status decoder built on the `WIFEXITED` /
  `WEXITSTATUS` / `WTERMSIG` macros.

Shell-visible output is modelled as the list of strings the process writes
to stdout, in order, with the exact format strings of the C source.
-/

namespace SmallShell

/-- The `shell_info` struct of `src/shell_info.h`.  The C flags are `int`s
holding 0 or 1; we keep them as `Nat` with C truthiness (`truthy`).  The
filename buffers are 256-byte arrays, modelled as strings (`memset` to zero
is the empty string). -/
structure shell_info where
  background : Nat
  exit_status : Int
  output_redirect : Nat
  input_redirect : Nat
  output_filename : String
  input_filename : String
deriving Repr, DecidableEq

/-- `init_shell_info` of `src/shell_info.c`: zeroes `background`,
`input_redirect`, `output_redirect` and both filename buffers.  The C
function does not touch `exit_status`. -/
def init_shell_info (info : shell_info) : shell_info :=
  { info with
    background := 0
    input_redirect := 0
    output_redirect := 0
    input_filename := ""
    output_filename := "" }

/-- C truthiness of an `int` flag: anything nonzero is true. -/
def truthy (n : Nat) : Bool := n != 0

/-- The condition `info->background && !stop_background` that `other_cmd`
evaluates (main.c lines 313 and 350).  `stop_background` is the global flag
toggled by the SIGTSTP handler; a snapshot of its value is passed in. -/
def effective_background (background stop_background : Nat) : Bool :=
  truthy background && !truthy stop_background

-- ------------------------------------------------------------------ --
-- Status decoding (my_status, main.c lines 100-109)
-- ------------------------------------------------------------------ --

/-- `WIFEXITED(s)`: low seven bits of the wait status are zero. -/
def wifexited (s : Int) : Bool := s % 128 == 0

/-- `WEXITSTATUS(s)`: bits 8..15 of the wait status. -/
def wexitstatus (s : Int) : Int := s / 256 % 256

/-- `WTERMSIG(s)`: low seven bits of the wait status. -/
def wtermsig (s : Int) : Int := s % 128

/-- The exact line `my_status` prints for a wait status (note the space
before the newline, as in the C format strings). -/
def my_status (s : Int) : String :=
  if wifexited s then "exit value " ++ toString (wexitstatus s) ++ " \n"
  else "terminated by signal " ++ toString (wtermsig s) ++ " \n"

-- ------------------------------------------------------------------ --
-- Parsing (parse_line, main.c lines 207-244)
-- ------------------------------------------------------------------ --

/-- The scanning loop of `strtok_r(.., " ", ..)`: runs of the delimiter
separate tokens, leading/trailing delimiters produce no empty tokens.
`acc` holds the characters of the token being built, in reverse. -/
def splitTokens : List Char → List Char → List String
  | [], acc => if acc = [] then [] else [String.mk acc.reverse]
  | c :: cs, acc =>
    if c = ' ' then
      if acc = [] then splitTokens cs []
      else String.mk acc.reverse :: splitTokens cs []
    else splitTokens cs (c :: acc)

/-- `strtok_r(line, " ", ..)` splitting: space-delimited tokens, empty
pieces (runs of delimiters) skipped. -/
def tokenize (line : String) : List String :=
  splitTokens line.toList []

/-- The C source has no NULL checks after `strtok_r`; passing the NULL it
returns to `strlen`/`strcpy` is undefined behavior (a crash), modelled as
this error value. -/
inductive ParseErr where
  | nullDeref
deriving Repr, DecidableEq

instance {ε α : Type} [DecidableEq ε] [DecidableEq α] :
    DecidableEq (Except ε α) := fun a b =>
  match a, b with
  | .error e, .error f =>
    if h : e = f then isTrue (h ▸ rfl)
    else isFalse (fun hh => h (Except.error.inj hh))
  | .error _, .ok _ => isFalse (fun hh => Except.noConfusion hh)
  | .ok _, .error _ => isFalse (fun hh => Except.noConfusion hh)
  | .ok x, .ok y =>
    if h : x = y then isTrue (h ▸ rfl)
    else isFalse (fun hh => h (Except.ok.inj hh))

/-- The argument loop of `parse_line` (main.c lines 217-243): for each
remaining token, `<` and `>` consume the next token as a redirect filename
(crashing if there is none), `&` sets the background flag (in ANY position),
`$$` appends the shell pid as a decimal string, anything else is appended
as a literal argument. -/
def parseTokens (pid : Nat) : List String → shell_info → List String →
    Except ParseErr (shell_info × List String)
  | [], info, args => .ok (info, args)
  | t :: rest, info, args =>
    if t = "<" then
      match rest with
      | [] => .error .nullDeref
      | f :: rest2 =>
        parseTokens pid rest2
          { info with input_redirect := 1, input_filename := f } args
    else if t = ">" then
      match rest with
      | [] => .error .nullDeref
      | f :: rest2 =>
        parseTokens pid rest2
          { info with output_redirect := 1, output_filename := f } args
    else if t = "&" then
      parseTokens pid rest { info with background := 1 } args
    else if t = "$$" then
      parseTokens pid rest info (args ++ [toString pid])
    else
      parseTokens pid rest info (args ++ [t])

/-- `parse_line` (main.c lines 207-244): the first token is copied into
`args[0]` unconditionally (with no check that `strtok_r` found one — an
untokenizable line dereferences NULL), then the loop above runs. -/
def parse_line (line : String) (pid : Nat) (info : shell_info) :
    Except ParseErr (shell_info × List String) :=
  match tokenize line with
  | [] => .error .nullDeref
  | t :: rest => parseTokens pid rest info [t]

/-- Reference scan over the non-first tokens, used to state the
characterization of the argument loop: whether the loop sets the
background flag.  It is true exactly when an `&` token occurs in a
position that is not consumed as a redirect filename (the token right
after a `<` or `>` is skipped, as the loop consumes it). -/
def bgScan : List String → Bool
  | [] => false
  | t :: rest =>
    if t = "<" then
      match rest with
      | [] => false
      | _ :: rest2 => bgScan rest2
    else if t = ">" then
      match rest with
      | [] => false
      | _ :: rest2 => bgScan rest2
    else if t = "&" then true
    else bgScan rest

/-- Reference scan over the non-first tokens, used to state the
characterization of the argument loop: the arguments it appends.
Redirect operators and their filenames contribute nothing, an `&`
contributes nothing in ANY position, `$$` contributes the pid string,
every other token contributes itself. -/
def argScan (pid : Nat) : List String → List String
  | [] => []
  | t :: rest =>
    if t = "<" then
      match rest with
      | [] => []
      | _ :: rest2 => argScan pid rest2
    else if t = ">" then
      match rest with
      | [] => []
      | _ :: rest2 => argScan pid rest2
    else if t = "&" then argScan pid rest
    else if t = "$$" then toString pid :: argScan pid rest
    else t :: argScan pid rest

-- ------------------------------------------------------------------ --
-- Redirection (main.c lines 121-165)
-- ------------------------------------------------------------------ --

/-- `output_redirection` (main.c lines 121-138): failure of `open` or of
`dup2(fd, 1)` each terminates the process with `exit(1)`.  The booleans
say whether the respective system call succeeds. -/
def output_redirection (openOk dupOk : Bool) : Except Int Unit :=
  if !openOk then .error 1
  else if !dupOk then .error 1
  else .ok ()

/-- `input_redirection` (main.c lines 148-165): failure of `open`
terminates with `exit(1)`, but failure of `dup2(fd, 0)` terminates with
`exit(0)` (main.c line 161) — a zero status. -/
def input_redirection (openOk dupOk : Bool) : Except Int Unit :=
  if !openOk then .error 1
  else if !dupOk then .error 0
  else .ok ()

-- ------------------------------------------------------------------ --
-- Child-side behavior of other_cmd (main.c lines 309-346)
-- ------------------------------------------------------------------ --

/-- A signal disposition. -/
inductive Disposition where
  | dfl
  | ign
  | custom
deriving Repr, DecidableEq

/-- Where a standard stream of the child points. -/
inductive StreamTarget where
  | terminal
  | nullDevice
  | file (name : String)
deriving Repr, DecidableEq

/-- Signal dispositions and stream bindings of a child at `execvp` time. -/
structure ChildConfig where
  sigtstp : Disposition
  sigint : Disposition
  stdin_target : StreamTarget
  stdout_target : StreamTarget
deriving Repr, DecidableEq

/-- The shell ignores SIGINT (`custom_SIG`, main.c lines 398-404); a child
inherits this across `fork`. -/
def shell_sigint : Disposition := .ign

/-- The shell handles SIGTSTP with `handle_SIG` (`custom_SIGTSTP`,
main.c lines 406-412); a child inherits this across `fork`. -/
def shell_sigtstp : Disposition := .custom

/-- The child configuration built by the `case 0:` branch of `other_cmd`
(main.c lines 309-339), in source order: `custom_IG()` sets SIGTSTP to
ignored unconditionally; an effectively-background child leaves SIGINT
inherited (ignored) and points each unredirected stream at `/dev/null`;
a foreground child restores SIGINT to default; then any explicit
redirection is applied.  `stop_background` is the child's snapshot of the
global flag at its evaluation of line 313. -/
def child_config (info : shell_info) (stop_background : Nat) : ChildConfig :=
  let c0 : ChildConfig :=
    { sigtstp := shell_sigtstp, sigint := shell_sigint,
      stdin_target := .terminal, stdout_target := .terminal }
  let c1 := { c0 with sigtstp := Disposition.ign }
  let c2 :=
    if effective_background info.background stop_background then
      { c1 with
        stdout_target :=
          if truthy info.output_redirect then c1.stdout_target
          else StreamTarget.nullDevice
        stdin_target :=
          if truthy info.input_redirect then c1.stdin_target
          else StreamTarget.nullDevice }
    else
      { c1 with sigint := Disposition.dfl }
  let c3 :=
    if truthy info.input_redirect then
      { c2 with stdin_target := StreamTarget.file info.input_filename }
    else c2
  if truthy info.output_redirect then
    { c3 with stdout_target := StreamTarget.file info.output_filename }
  else c3

/-- What the child writes to stdout before `execvp` (main.c line 314):
an effectively-background child prints its own pid; a foreground child
prints nothing.  This print happens in the CHILD process, before the
null-device redirection of its stdout. -/
def other_cmd_child_output (info : shell_info) (stop_background childPid : Nat) :
    List String :=
  if effective_background info.background stop_background then
    ["background pid is " ++ toString childPid ++ " \n"]
  else []

/-- Outcome of the child branch: either the process image was replaced by
`execvp`, or the child terminated with `exit(code)`. -/
inductive ChildResult where
  | execed
  | exited (code : Int)
deriving Repr, DecidableEq

/-- Success of each system call the child may make. -/
structure ChildEnv where
  inOpenOk : Bool
  inDupOk : Bool
  outOpenOk : Bool
  outDupOk : Bool
  execOk : Bool
deriving Repr, DecidableEq

/-- The exit behavior of the child branch of `other_cmd` (main.c lines
309-346), in source order: null-device output then input redirection when
effectively background and unredirected, then explicit input and output
redirection, then `execvp`; a failing `execvp` is followed by `exit(2)`
(main.c line 345). -/
def child_run (info : shell_info) (stop_background : Nat) (env : ChildEnv) :
    ChildResult :=
  let bg := effective_background info.background stop_background
  match (if bg && !truthy info.output_redirect then
           output_redirection env.outOpenOk env.outDupOk
         else .ok ()) with
  | .error c => .exited c
  | .ok () =>
  match (if bg && !truthy info.input_redirect then
           input_redirection env.inOpenOk env.inDupOk
         else .ok ()) with
  | .error c => .exited c
  | .ok () =>
  match (if truthy info.input_redirect then
           input_redirection env.inOpenOk env.inDupOk
         else .ok ()) with
  | .error c => .exited c
  | .ok () =>
  match (if truthy info.output_redirect then
           output_redirection env.outOpenOk env.outDupOk
         else .ok ()) with
  | .error c => .exited c
  | .ok () => if env.execOk then .execed else .exited 2

-- ------------------------------------------------------------------ --
-- Parent-side behavior of other_cmd (main.c lines 348-362)
-- ------------------------------------------------------------------ --

/-- Whether the parent's `waitpid` call suspends. -/
inductive WaitMode where
  | nonBlocking
  | blocking
deriving Repr, DecidableEq

/-- Which wait the parent performs (main.c lines 350-355): `WNOHANG` when
effectively background, a blocking wait on the specific child otherwise.
`stop_background` is the parent's snapshot of the global flag at its
evaluation of line 350. -/
def other_cmd_parent_wait (info : shell_info) (stop_background : Nat) : WaitMode :=
  if effective_background info.background stop_background then .nonBlocking
  else .blocking

/-- The parent branch of `other_cmd` (main.c lines 348-362): effectively
background — `waitpid(pid, .., WNOHANG)` on the just-spawned (hence not yet
terminated) child returns 0 and leaves `exit_status` unchanged, nothing is
printed; otherwise the parent blocks, stores the child's wait status in
`info->exit_status`, and prints `my_status` of it when it is nonzero
(main.c lines 357-359).  `fgWaitStatus` is the wait status a blocking wait
would obtain. -/
def other_cmd_parent (info : shell_info) (stop_background : Nat)
    (fgWaitStatus : Int) : shell_info × List String :=
  if effective_background info.background stop_background then
    (info, [])
  else
    ({ info with exit_status := fgWaitStatus },
     if fgWaitStatus ≠ 0 then [my_status fgWaitStatus] else [])

-- ------------------------------------------------------------------ --
-- execute_cmd (main.c lines 256-287)
-- ------------------------------------------------------------------ --

/-- A child the OS reports as terminated: its pid and wait status. -/
structure Reaped where
  pid : Nat
  status : Int
deriving Repr, DecidableEq

/-- The reap loop of `execute_cmd` (main.c lines 279-284): each
`waitpid(-1, &info->exit_status, WNOHANG)` that finds a terminated child
overwrites `info->exit_status` with that child's status and prints
"background pid %d is done: " followed by `my_status`; when no terminated
child remains the loop ends without blocking.  `children` is the list of
terminated children the OS hands over, in reap order; the result is the
final value of `exit_status` and the printed lines. -/
def reap_sweep (exit_status : Int) : List Reaped → Int × List String
  | [] => (exit_status, [])
  | c :: rest =>
    let tail := reap_sweep c.status rest
    (tail.1,
     ("background pid " ++ toString c.pid ++ " is done: ") ::
       my_status c.status :: tail.2)

/-- `execute_cmd` (main.c lines 256-287): dispatch on `args[0]` — the
`exit`, `cd` and `status` built-ins, the blank-line/comment no-op, or
`other_cmd` — then, on EVERY path, the non-blocking reap sweep.  Returns
the loop-continuation status, the updated `shell_info`, and the lines
printed.  `stop_background` and `fgWaitStatus` feed `other_cmd_parent`;
`children` feeds the sweep. -/
def execute_cmd (args : List String) (info : shell_info)
    (stop_background : Nat) (fgWaitStatus : Int) (children : List Reaped) :
    Nat × shell_info × List String :=
  let arg0 := args.headD ""
  let step :=
    if arg0 = "exit" then (0, info, ["exiting shell \n"])
    else if arg0 = "cd" then (1, info, [])
    else if arg0 = "status" then (1, info, [my_status info.exit_status])
    else if arg0 = "\n" ∨ arg0.front = '#' then (1, info, [])
    else
      let p := other_cmd_parent info stop_background fgWaitStatus
      (1, p.1, p.2)
  let swept := reap_sweep step.2.1.exit_status children
  (step.1, { step.2.1 with exit_status := swept.1 }, step.2.2 ++ swept.2)

/-- One iteration of the `do` loop of `small_shell` (main.c lines 448-459):
`init_shell_info`, then `parse_line`, then `execute_cmd`. -/
def small_shell_cycle (info : shell_info) (line : String) (pid : Nat)
    (stop_background : Nat) (fgWaitStatus : Int) (children : List Reaped) :
    Except ParseErr (Nat × shell_info × List String) :=
  let info0 := init_shell_info info
  match parse_line line pid info0 with
  | .error e => .error e
  | .ok r => .ok (execute_cmd r.2 r.1 stop_background fgWaitStatus children)

/-- A `shell_info` with all fields zero, for concrete instances. -/
def info0 : shell_info :=
  { background := 0, exit_status := 0, output_redirect := 0,
    input_redirect := 0, output_filename := "", input_filename := "" }

end SmallShell

namespace SmallShell

-- ------------------------------------------------------------------ --
-- Helper lemmas
-- ------------------------------------------------------------------ --

/-- Unfolding of the base case of the argument loop. -/
theorem parseTokens_nil (pid : Nat) (info : shell_info) (args : List String) :
    parseTokens pid [] info args = Except.ok (info, args) := by
  rw [parseTokens.eq_def]

/-- Unfolding of one step of the argument loop. -/
theorem parseTokens_cons (pid : Nat) (t : String) (rest : List String)
    (info : shell_info) (args : List String) :
    parseTokens pid (t :: rest) info args =
      (if t = "<" then
        match rest with
        | [] => .error .nullDeref
        | f :: rest2 =>
          parseTokens pid rest2
            { info with input_redirect := 1, input_filename := f } args
      else if t = ">" then
        match rest with
        | [] => .error .nullDeref
        | f :: rest2 =>
          parseTokens pid rest2
            { info with output_redirect := 1, output_filename := f } args
      else if t = "&" then
        parseTokens pid rest { info with background := 1 } args
      else if t = "$$" then
        parseTokens pid rest info (args ++ [toString pid])
      else
        parseTokens pid rest info (args ++ [t])) := by
  rw [parseTokens.eq_def]

/-- Unfolding of one step of `bgScan`. -/
theorem bgScan_cons (t : String) (rest : List String) :
    bgScan (t :: rest) =
      (if t = "<" then
        match rest with
        | [] => false
        | _ :: rest2 => bgScan rest2
      else if t = ">" then
        match rest with
        | [] => false
        | _ :: rest2 => bgScan rest2
      else if t = "&" then true
      else bgScan rest) := by
  rw [bgScan.eq_def]

/-- Unfolding of one step of `argScan`. -/
theorem argScan_cons (pid : Nat) (t : String) (rest : List String) :
    argScan pid (t :: rest) =
      (if t = "<" then
        match rest with
        | [] => []
        | _ :: rest2 => argScan pid rest2
      else if t = ">" then
        match rest with
        | [] => []
        | _ :: rest2 => argScan pid rest2
      else if t = "&" then argScan pid rest
      else if t = "$$" then toString pid :: argScan pid rest
      else t :: argScan pid rest) := by
  rw [argScan.eq_def]

/-- Characterization of the argument loop of `parse_line` on an ARBITRARY
token list: whenever it succeeds, the resulting background flag is 1
exactly when an `&` token occurs in any position not consumed as a
redirect filename (otherwise the flag is left as it was), and the
argument vector receives exactly the `argScan` tokens — in particular an
`&` never contributes an argument, in any position. -/
theorem parseTokens_background_args (pid : Nat) (rest : List String)
    (info : shell_info) (args : List String) :
    ∀ (info2 : shell_info) (args2 : List String),
      parseTokens pid rest info args = Except.ok (info2, args2) →
      info2.background = (if bgScan rest then 1 else info.background) ∧
      args2 = args ++ argScan pid rest := by
  induction rest, info, args using parseTokens.induct pid with
  | case1 info args =>
    intro info2 args2 hok
    rw [parseTokens_nil] at hok
    injection hok with h
    injection h with h1 h2
    subst h1
    subst h2
    simp [bgScan, argScan]
  | case2 info args =>
    intro info2 args2 hok
    rw [parseTokens_cons] at hok
    simp at hok
  | case3 info args f rest2 ih1 =>
    intro info2 args2 hok
    rw [parseTokens_cons] at hok
    simp only [reduceIte] at hok
    obtain ⟨hbg, hargs⟩ := ih1 info2 args2 hok
    simp only [bgScan, argScan, reduceIte]
    exact ⟨hbg, hargs⟩
  | case4 info args h1 =>
    intro info2 args2 hok
    rw [parseTokens_cons] at hok
    simp at hok
  | case5 info args f rest2 h1 ih1 =>
    intro info2 args2 hok
    rw [parseTokens_cons] at hok
    simp only [reduceIte] at hok
    obtain ⟨hbg, hargs⟩ := ih1 info2 args2 hok
    simp only [bgScan, argScan, reduceIte]
    exact ⟨hbg, hargs⟩
  | case6 rest info args h1 h2 ih1 =>
    intro info2 args2 hok
    rw [parseTokens_cons] at hok
    simp only [reduceIte] at hok
    obtain ⟨hbg, hargs⟩ := ih1 info2 args2 hok
    simp at hbg
    rw [bgScan_cons, argScan_cons]
    simp
    exact ⟨hbg, hargs⟩
  | case7 rest info args h1 h2 h3 ih1 =>
    intro info2 args2 hok
    rw [parseTokens_cons] at hok
    simp only [reduceIte] at hok
    obtain ⟨hbg, hargs⟩ := ih1 info2 args2 hok
    rw [bgScan_cons, argScan_cons]
    simp
    refine ⟨hbg, ?_⟩
    rw [hargs, List.append_assoc]
    rfl
  | case8 t rest info args h1 h2 h3 h4 ih1 =>
    intro info2 args2 hok
    rw [parseTokens_cons] at hok
    simp only [h1, h2, h3, h4, reduceIte, if_false] at hok
    obtain ⟨hbg, hargs⟩ := ih1 info2 args2 hok
    rw [bgScan_cons, argScan_cons]
    simp [h1, h2, h3, h4]
    refine ⟨hbg, ?_⟩
    rw [hargs, List.append_assoc]
    rfl

/-- The printed lines of the reap sweep: one "background pid .. is done: "
header and one decoded status per terminated child, in order. -/
theorem reap_sweep_outputs (es : Int) (children : List Reaped) :
    (reap_sweep es children).2 =
      (children.map (fun c =>
        ["background pid " ++ toString c.pid ++ " is done: ",
         my_status c.status])).flatten := by
  induction children generalizing es with
  | nil => rfl
  | cons c rest ih => simp [reap_sweep, ih]

end SmallShell

namespace SmallShell

-- ------------------------------------------------------------------ --
-- Claim C1
-- ------------------------------------------------------------------ --

/-- Claim C1, counterexample: on the line "ls & -la" the token `&` is NOT
the final token, yet the parser sets `background = 1`; and the `&` is not
added to the argument vector (the arguments are just ["ls", "-la"]).  Both
halves of the claim — background only for a final `&`, a non-final `&`
kept as a literal argument — fail at this input. -/
theorem C1_counterexample :
    parse_line "ls & -la" 42 info0 =
      Except.ok ({ info0 with background := 1 }, ["ls", "-la"]) := by
  decide

/-- Claim C1 (amended): on EVERY line the parser accepts, a lone `&`
token in ANY position after the first token sets `background = 1` as long
as it is not consumed as a redirect filename (`bgScan`), and an `&` token
never contributes an argument, in any position: the argument vector is
exactly the first token followed by `argScan` of the rest, which drops
every `&` (and every redirect operator with its filename) by
construction. -/
theorem C1_amended_theorem (line : String) (pid : Nat) (info : shell_info)
    (first : String) (rest : List String)
    (info2 : shell_info) (args2 : List String)
    (ht : tokenize line = first :: rest)
    (hok : parse_line line pid info = Except.ok (info2, args2)) :
    info2.background = (if bgScan rest then 1 else info.background) ∧
    args2 = first :: argScan pid rest := by
  unfold parse_line at hok
  rw [ht] at hok
  exact parseTokens_background_args pid rest info [first] info2 args2 hok

/-- Witness for `C1_amended_theorem` at the spec's own redirect-carrying
example line "sort < in.txt > out.txt &": the `&` — not consumed as a
filename — sets background, and the argument vector is just ["sort"]. -/
theorem C1_amended_witness :
    (({ info0 with background := 1, output_redirect := 1,
                   input_redirect := 1, output_filename := "out.txt",
                   input_filename := "in.txt" } : shell_info)).background =
      (if bgScan ["<", "in.txt", ">", "out.txt", "&"] then 1
       else info0.background) ∧
    (["sort"] : List String) =
      "sort" :: argScan 42 ["<", "in.txt", ">", "out.txt", "&"] :=
  C1_amended_theorem "sort < in.txt > out.txt &" 42 info0 "sort"
    ["<", "in.txt", ">", "out.txt", "&"]
    { info0 with background := 1, output_redirect := 1, input_redirect := 1,
                 output_filename := "out.txt", input_filename := "in.txt" }
    ["sort"] (by decide) (by decide)

-- ------------------------------------------------------------------ --
-- Claim C2
-- ------------------------------------------------------------------ --

/-- Claim C2, failing input: a child whose input redirection opens the
file successfully but whose `dup2(fd, 0)` fails terminates with
`exit(0)` (main.c line 161) — a ZERO status, not the distinguishing
non-zero status the claim requires.  For contrast, the same failure on the
output side exits 1, open failures exit 1, and exec failure exits 2, as
the claim says. -/
theorem C2_input_rebind_failure_exits_zero :
    child_run { info0 with input_redirect := 1, input_filename := "in.txt" } 0
        ⟨true, false, true, true, true⟩ = ChildResult.exited 0 ∧
    child_run { info0 with output_redirect := 1, output_filename := "o.txt" } 0
        ⟨true, true, true, false, true⟩ = ChildResult.exited 1 ∧
    child_run { info0 with input_redirect := 1, input_filename := "in.txt" } 0
        ⟨false, true, true, true, true⟩ = ChildResult.exited 1 ∧
    child_run info0 0 ⟨true, true, true, true, false⟩ = ChildResult.exited 2 := by
  decide

-- ------------------------------------------------------------------ --
-- Claim C3
-- ------------------------------------------------------------------ --

/-- Claim C3, failing input: a foreground child exits with code 1 (wait
status 256); the immediate report "exit value 1" is printed, but the reap
sweep of the same cycle finds a terminated background child (pid 77,
status 0) and `waitpid(-1, &info->exit_status, WNOHANG)` (main.c line 280)
overwrites the stored status with 0.  The `status` built-in on the next
cycle — with no intervening command — then reports "exit value 0", not
"exit value 1": background reaping DOES mutate the stored
last-foreground status. -/
theorem C3_reap_clobbers_status :
    (execute_cmd ["somecmd"] { info0 with exit_status := 7 } 0 256
        [⟨77, 0⟩]).2.2 =
      ["exit value 1 \n", "background pid 77 is done: ", "exit value 0 \n"] ∧
    (execute_cmd ["somecmd"] { info0 with exit_status := 7 } 0 256
        [⟨77, 0⟩]).2.1.exit_status = 0 ∧
    (execute_cmd ["status"]
        (init_shell_info
          (execute_cmd ["somecmd"] { info0 with exit_status := 7 } 0 256
            [⟨77, 0⟩]).2.1)
        0 0 []).2.2 = ["exit value 0 \n"] := by
  decide

-- ------------------------------------------------------------------ --
-- Claim C5
-- ------------------------------------------------------------------ --

/-- Claim C5, failing input: a whitespace-only line yields no token, and
`parse_line` has no `EmptyCommand` result and no silent no-op for it: the
C source passes the NULL returned by `strtok_r` straight to
`strlen`/`strcpy` (main.c lines 213-214) — undefined behavior (a crash),
modelled as `ParseErr.nullDeref`.  A truly blank line survives parsing as
the single token "\n" (newline is not a delimiter) and is skipped later by
`execute_cmd`'s dispatch, not by any parser failure. -/
theorem C5_whitespace_line_crashes :
    parse_line " " 42 info0 = Except.error ParseErr.nullDeref ∧
    tokenize " " = [] ∧
    parse_line "\n" 42 info0 = Except.ok (info0, ["\n"]) ∧
    (execute_cmd ["\n"] info0 0 0 []).2.2 = [] := by
  decide

end SmallShell

namespace SmallShell

-- ------------------------------------------------------------------ --
-- Claim C4
-- ------------------------------------------------------------------ --

/-- Claim C4, counterexample: `info->background && !stop_background` is
re-evaluated at each use, not computed once at spawn time.  With a
background request, a child that read the global flag as 0 (main.c line
313) is configured as a background child (SIGINT stays ignored), while the
parent reading the flag as 1 (main.c line 350) — after a foreground-only
toggle between the two reads — performs a BLOCKING wait: the child's
configuration and the parent's wait mode disagree. -/
theorem C4_counterexample :
    (child_config { info0 with background := 1 } 0).sigint = Disposition.ign ∧
    (child_config { info0 with background := 1 } 0).stdout_target =
      StreamTarget.nullDevice ∧
    other_cmd_parent_wait { info0 with background := 1 } 1 =
      WaitMode.blocking := by
  decide

/-- Claim C4 (amended): effective background-ness is re-evaluated at each
use from the then-current value of the global flag; whenever the child's
read and the parent's read see the SAME flag value, the child's
configuration and the parent's wait mode agree (background configuration
with a non-blocking wait, or foreground configuration with a blocking
wait) — only a toggle of foreground-only mode between the two reads can
make them disagree. -/
theorem C4_amended_theorem (info : shell_info) (s : Nat) :
    ((child_config info s).sigint = Disposition.ign ∧
      other_cmd_parent_wait info s = WaitMode.nonBlocking) ∨
    ((child_config info s).sigint = Disposition.dfl ∧
      other_cmd_parent_wait info s = WaitMode.blocking) := by
  by_cases h : effective_background info.background s = true
  · left
    constructor
    · simp only [child_config, h, if_true, reduceIte]
      split <;> split <;> rfl
    · simp [other_cmd_parent_wait, h]
  · right
    rw [Bool.not_eq_true] at h
    constructor
    · simp only [child_config, h, if_false, Bool.false_eq_true, reduceIte]
      split <;> split <;> rfl
    · simp [other_cmd_parent_wait, h]

-- ------------------------------------------------------------------ --
-- Claim C6
-- ------------------------------------------------------------------ --

/-- Claim C6, counterexample: for an effectively-background request the
original (parent) process prints NOTHING — the "background pid is .."
message is printed by the spawned CHILD itself (main.c line 314 sits in
the `case 0:` branch of the fork switch and prints `getpid()`).  The
parent's output list is empty while the child's holds the pid message. -/
theorem C6_counterexample :
    (other_cmd_parent { info0 with background := 1 } 0 0).2 = [] ∧
    other_cmd_child_output { info0 with background := 1 } 0 99 =
      ["background pid is 99 \n"] := by
  decide

/-- Claim C6 (amended): for every effectively-background request the
parent performs a non-blocking wait, leaves `shell_info` untouched and
prints nothing; the pid announcement is printed by the spawned child
itself (before `execvp`). -/
theorem C6_amended_theorem (info : shell_info) (s : Nat) (fg : Int)
    (childPid : Nat)
    (h : effective_background info.background s = true) :
    other_cmd_parent_wait info s = WaitMode.nonBlocking ∧
    other_cmd_parent info s fg = (info, []) ∧
    other_cmd_child_output info s childPid =
      ["background pid is " ++ toString childPid ++ " \n"] := by
  simp [other_cmd_parent_wait, other_cmd_parent, other_cmd_child_output, h]

/-- Witness for `C6_amended_theorem` with a background request, the flag
off, and child pid 99. -/
theorem C6_amended_witness :
    other_cmd_parent_wait { info0 with background := 1 } 0 =
      WaitMode.nonBlocking ∧
    other_cmd_parent { info0 with background := 1 } 0 0 =
      ({ info0 with background := 1 }, []) ∧
    other_cmd_child_output { info0 with background := 1 } 0 99 =
      ["background pid is " ++ toString 99 ++ " \n"] :=
  C6_amended_theorem { info0 with background := 1 } 0 0 99 (by decide)

-- ------------------------------------------------------------------ --
-- Claim C7
-- ------------------------------------------------------------------ --

/-- Claim C7: a request with `background = 1` issued while the
foreground-only flag is 1 runs as a foreground request — the parent
performs a blocking wait and the child restores SIGINT to its default
(process-terminating) disposition before exec. -/
theorem C7_theorem (info : shell_info) (s : Nat)
    (_hbg : info.background = 1) (hmode : s = 1) :
    other_cmd_parent_wait info s = WaitMode.blocking ∧
    (child_config info s).sigint = Disposition.dfl := by
  subst hmode
  have h : effective_background info.background 1 = false := by
    simp [effective_background, truthy]
  constructor
  · simp [other_cmd_parent_wait, h]
  · simp only [child_config, h, Bool.false_eq_true, if_false, reduceIte]
    split <;> split <;> rfl

/-- Witness for `C7_theorem`: a background request under the
foreground-only flag. -/
theorem C7_witness :
    other_cmd_parent_wait { info0 with background := 1 } 1 =
      WaitMode.blocking ∧
    (child_config { info0 with background := 1 } 1).sigint =
      Disposition.dfl :=
  C7_theorem { info0 with background := 1 } 1 (by decide) (by decide)

-- ------------------------------------------------------------------ --
-- Claim C8
-- ------------------------------------------------------------------ --

/-- Claim C8: every spawned child has SIGTSTP set to ignored
unconditionally before exec (`custom_IG`, called first in the child
branch); an effectively-background child additionally keeps SIGINT
ignored (the disposition inherited from the shell), and each of its
standard streams with no explicit redirection requested is rebound to the
null device before exec. -/
theorem C8_theorem (info : shell_info) (s : Nat) :
    (child_config info s).sigtstp = Disposition.ign ∧
    (effective_background info.background s = true →
      (child_config info s).sigint = Disposition.ign ∧
      (info.input_redirect = 0 →
        (child_config info s).stdin_target = StreamTarget.nullDevice) ∧
      (info.output_redirect = 0 →
        (child_config info s).stdout_target = StreamTarget.nullDevice)) := by
  constructor
  · simp only [child_config]
    split <;> split <;> split <;> rfl
  · intro h
    refine ⟨?_, ?_, ?_⟩
    · simp only [child_config, h, if_true, reduceIte]
      split <;> split <;> rfl
    · intro hin
      have hin' : truthy info.input_redirect = false := by
        simp [truthy, hin]
      simp only [child_config, h, hin', Bool.false_eq_true, if_true,
        if_false, reduceIte]
      split <;> rfl
    · intro hout
      have hout' : truthy info.output_redirect = false := by
        simp [truthy, hout]
      simp only [child_config, h, hout', Bool.false_eq_true, if_true,
        if_false, reduceIte]
      split <;> rfl

/-- Witness for `C8_theorem`: an effectively-background child with no
redirection requested gets SIGTSTP ignored, SIGINT ignored, and both
streams pointed at the null device. -/
theorem C8_witness :
    (child_config { info0 with background := 1 } 0).sigtstp =
      Disposition.ign ∧
    (child_config { info0 with background := 1 } 0).sigint =
      Disposition.ign ∧
    (child_config { info0 with background := 1 } 0).stdin_target =
      StreamTarget.nullDevice ∧
    (child_config { info0 with background := 1 } 0).stdout_target =
      StreamTarget.nullDevice :=
  ⟨(C8_theorem { info0 with background := 1 } 0).1,
   ((C8_theorem { info0 with background := 1 } 0).2 (by decide)).1,
   ((C8_theorem { info0 with background := 1 } 0).2 (by decide)).2.1
     (by decide),
   ((C8_theorem { info0 with background := 1 } 0).2 (by decide)).2.2
     (by decide)⟩

end SmallShell

namespace SmallShell

-- ------------------------------------------------------------------ --
-- Claim C9
-- ------------------------------------------------------------------ --

/-- Claim C9: the reap sweep runs after every command cycle — whatever
`args[0]` dispatched to (built-in, blank line, comment, or an external
command) the printed lines are exactly those of the dispatch followed by
one "background pid .. is done: " header and one decoded status per
terminated child the non-blocking wait hands over; with no terminated
child, zero extra reports are produced. -/
theorem C9_theorem (args : List String) (info : shell_info) (s : Nat)
    (fg : Int) (children : List Reaped) :
    (execute_cmd args info s fg children).2.2 =
      (execute_cmd args info s fg []).2.2 ++
        (children.map (fun c =>
          ["background pid " ++ toString c.pid ++ " is done: ",
           my_status c.status])).flatten ∧
    (reap_sweep info.exit_status []).2 = [] := by
  constructor
  · simp only [execute_cmd, reap_sweep_outputs]
    simp [reap_sweep]
  · rfl

-- ------------------------------------------------------------------ --
-- Claim C10
-- ------------------------------------------------------------------ --

/-- Claim C10: `init_shell_info`, run at the start of every command cycle,
zeroes `background`, `input_redirect`, `output_redirect` and both filename
buffers but leaves `exit_status` unchanged; hence the last recorded
termination status survives across command cycles, and a `status` cycle
reports whatever value `exit_status` happens to hold — including the
never-initialized value of the very first cycles, since nothing in the
program writes it before the first wait. -/
theorem C10_theorem (info : shell_info) (pid s : Nat) (fg : Int) :
    (init_shell_info info).exit_status = info.exit_status ∧
    (init_shell_info info).background = 0 ∧
    (init_shell_info info).input_redirect = 0 ∧
    (init_shell_info info).output_redirect = 0 ∧
    (init_shell_info info).input_filename = "" ∧
    (init_shell_info info).output_filename = "" ∧
    small_shell_cycle info "status" pid s fg [] =
      Except.ok (1, init_shell_info info, [my_status info.exit_status]) := by
  refine ⟨rfl, rfl, rfl, rfl, rfl, rfl, ?_⟩
  have ht : tokenize "status" = ["status"] := by decide
  simp only [small_shell_cycle, parse_line, ht]
  simp [parseTokens, execute_cmd, reap_sweep, init_shell_info]

end SmallShell
